import Mathlib

/-!
Verification of the voucher-discount order pipeline of the storefront
application (src/src/index.tsx): voucher validation, order pricing and the
order-creation workflow, as served by the routes POST /api/orders and
POST /api/vouchers/validate, together with the admin voucher operations.

The datastore (Cloudflare D1 / SQLite) is modelled as lists of rows; a
SELECT statement is a pure read over them (first matching row), an UPDATE
maps the rows, an INSERT appends.  ISO-8601 timestamp strings compare
lexicographically exactly as instants compare, so times are modelled as
integers.  REAL-valued money amounts are modelled as integers (exact
arithmetic).  JavaScript string normalisation `code.trim().toUpperCase()`
is modelled character-by-character on the underlying character list, with
`Char.toUpper` (the ASCII case map, which is what the stored codes use).
-/

/-! ### JavaScript string normalisation: trim and toUpperCase -/

/-- Drop leading whitespace, JS `trimStart`. -/
def ltrim (l : List Char) : List Char := l.dropWhile Char.isWhitespace

/-- Drop trailing whitespace, JS `trimEnd`. -/
def rtrim (l : List Char) : List Char := (ltrim l.reverse).reverse

/-- JS `s.trim()` on the character list. -/
def trimChars (l : List Char) : List Char := rtrim (ltrim l)

/-- JS `s.trim()` on strings. -/
def trimStr (s : String) : String := String.mk (trimChars s.data)

/-- JS `s.trim().toUpperCase()`: the normal form under which voucher codes
are looked up (source: `voucher_code.trim().toUpperCase()`). -/
def normCode (s : String) : String := String.mk ((trimChars s.data).map Char.toUpper)

/-! ### Data model (initDB schema, src/src/index.tsx lines 1841-1901) -/

/-- Row of the `products` table (the columns the order flow reads). -/
structure Product where
  id : Nat
  name : String
  price : Int
  is_active : Bool
deriving Repr, DecidableEq

/-- Row of the `vouchers` table. -/
structure Voucher where
  id : Nat
  code : String
  discount_amount : Int
  valid_from : Int
  valid_to : Int
  usage_limit : Int
  used_count : Int
  is_active : Bool
deriving Repr, DecidableEq

/-- Row of the `orders` table (the columns the order flow writes). -/
structure Order where
  order_code : String
  customer_name : String
  customer_phone : String
  customer_address : String
  product_id : Nat
  product_name : String
  product_price : Int
  color : String
  size : String
  quantity : Int
  total_price : Int
  voucher_code : String
  discount_amount : Int
  note : String
deriving Repr, DecidableEq

/-- The datastore: the three tables as row lists. -/
structure DB where
  products : List Product
  orders : List Order
  vouchers : List Voucher
deriving Repr, DecidableEq

/-- Request body of POST /api/orders.  Absent or empty strings are both
falsy in the source checks, so an absent field is the empty string; the
`quantity` field is carried as the result of `parseInt(quantity)`:
`none` when that is NaN (absent or non-numeric), `some n` otherwise.
`product_id = 0` stands for an absent (or zero, equally falsy) id. -/
structure OrderInput where
  customer_name : String
  customer_phone : String
  customer_address : String
  product_id : Nat
  color : String
  size : String
  quantity : Option Int
  note : String
  voucher_code : String
deriving Repr, DecidableEq

/-- Outcome of POST /api/orders, one constructor per return site of the
handler.  `insertFailed` is the 500 path where the order INSERT throws. -/
inductive OrderResult where
  | missingFields
  | productNotFound
  | invalidVoucher
  | voucherLimit
  | insertFailed
  | ok (order_code : String) (discount : Int) (total : Int)
deriving Repr, DecidableEq

/-- Outcome of POST /api/vouchers/validate. -/
inductive VResult where
  | missingCode
  | invalidVoucher
  | voucherLimit
  | ok (id : Nat) (code : String) (discount_amount : Int)
deriving Repr, DecidableEq

/-! ### The handlers (src/src/index.tsx) -/

/-- WHERE clause of
`SELECT * FROM vouchers WHERE code=? AND is_active=1 AND valid_from<=? AND valid_to>=?`
with the code parameter already normalised. -/
def voucherMatches (code : String) (now : Int) (v : Voucher) : Bool :=
  v.code == code && v.is_active && decide (v.valid_from ≤ now) && decide (now ≤ v.valid_to)

/-- WHERE clause of `SELECT * FROM products WHERE id=? AND is_active=1`. -/
def productMatches (pid : Nat) (p : Product) : Bool :=
  p.id == pid && p.is_active

/-- `UPDATE vouchers SET used_count=used_count+1 WHERE id=?`. -/
def incrVouchers (vid : Nat) (vs : List Voucher) : List Voucher :=
  vs.map (fun v => if v.id = vid then { v with used_count := v.used_count + 1 } else v)

/-- `qty = parseInt(quantity) || 1` (line 2069): NaN and 0 are falsy. -/
def qtyOf (q : Option Int) : Int :=
  match q with
  | none => 1
  | some n => if n = 0 then 1 else n

/-- One base-36 digit, already upper-case (the source upper-cases the whole
base-36 string). -/
def b36digit (d : Nat) : Char :=
  if d < 10 then Char.ofNat (48 + d) else Char.ofNat (55 + d)

/-- Base-36 digits of `n`, most significant first (fuelled recursion). -/
def b36 (fuel n : Nat) : List Char :=
  match fuel with
  | 0 => []
  | fuel + 1 => if n < 36 then [b36digit n] else b36 fuel (n / 36) ++ [b36digit (n % 36)]

/-- `orderCode = 'FS' + Date.now().toString(36).toUpperCase()` (line 2093),
with `now` the same instant that timestamps the request. -/
def genOrderCode (now : Int) : String :=
  String.mk ('F' :: 'S' :: b36 (now.toNat + 1) now.toNat)

/-- The required-fields check of line 2062:
`!customer_name || !customer_phone || !customer_address || !product_id`. -/
def missingReq (inp : OrderInput) : Prop :=
  inp.customer_name = "" ∨ inp.customer_phone = "" ∨ inp.customer_address = "" ∨
    inp.product_id = 0

instance (inp : OrderInput) : Decidable (missingReq inp) := by
  unfold missingReq; infer_instance

/-- The guard of line 2073, `voucher_code && voucher_code.trim()`. -/
def voucherGiven (inp : OrderInput) : Prop :=
  inp.voucher_code ≠ "" ∧ trimStr inp.voucher_code ≠ ""

instance (inp : OrderInput) : Decidable (voucherGiven inp) := by
  unfold voucherGiven; infer_instance

/-- Lines 2091-2092: `subtotal = product.price * qty` and
`total = Math.max(0, subtotal - discount)`. -/
def orderTotal (productPrice qty discount : Int) : Int :=
  max 0 (productPrice * qty - discount)

/-- The row bound into the order INSERT of lines 2095-2112. -/
def newOrderRow (inp : OrderInput) (now : Int) (product : Product)
    (qty discount : Int) : Order where
  order_code := genOrderCode now
  customer_name := inp.customer_name
  customer_phone := inp.customer_phone
  customer_address := inp.customer_address
  product_id := inp.product_id
  product_name := product.name
  product_price := product.price
  color := inp.color
  size := inp.size
  quantity := qty
  total_price := orderTotal product.price qty discount
  voucher_code := if inp.voucher_code ≠ "" then normCode inp.voucher_code else ""
  discount_amount := discount
  note := inp.note

/-- Tail of the order handler after the voucher step (lines 2091-2116):
pricing, order-code generation and the order INSERT.  `insertOk` models
whether the INSERT statement succeeds; when it throws, the handler lands
in the catch block and returns 500 with the state as the previous
statements left it. -/
def finishOrder (inp : OrderInput) (now : Int) (insertOk : Bool) (product : Product)
    (qty discount : Int) (db : DB) : DB × OrderResult :=
  if insertOk then
    ({ db with orders := db.orders ++ [newOrderRow inp now product qty discount] },
     OrderResult.ok (genOrderCode now) discount (orderTotal product.price qty discount))
  else (db, OrderResult.insertFailed)

/-- POST /api/orders (lines 2053-2120), transcribed statement by statement:
required-fields check, active-product lookup, optional voucher validation
with the used_count increment, pricing, and the order INSERT. -/
def createOrder (inp : OrderInput) (now : Int) (insertOk : Bool) (db : DB) :
    DB × OrderResult :=
  if missingReq inp then (db, OrderResult.missingFields)
  else
    match db.products.find? (productMatches inp.product_id) with
    | none => (db, OrderResult.productNotFound)
    | some product =>
      let qty := qtyOf inp.quantity
      if voucherGiven inp then
        match db.vouchers.find? (voucherMatches (normCode inp.voucher_code) now) with
        | none => (db, OrderResult.invalidVoucher)
        | some voucher =>
          if voucher.usage_limit > 0 ∧ voucher.used_count ≥ voucher.usage_limit then
            (db, OrderResult.voucherLimit)
          else
            finishOrder inp now insertOk product qty voucher.discount_amount
              { db with vouchers := incrVouchers voucher.id db.vouchers }
      else
        finishOrder inp now insertOk product qty 0 db

/-- POST /api/vouchers/validate (lines 2169-2189), a state-passing
transcription: its only datastore statement is a SELECT, which reads the
state and leaves it unchanged. -/
def validateVoucherRun (code : String) (now : Int) (db : DB) : DB × VResult :=
  if code = "" then (db, VResult.missingCode)
  else
    match db.vouchers.find? (voucherMatches (normCode code) now) with
    | none => (db, VResult.invalidVoucher)
    | some v =>
      if v.usage_limit > 0 ∧ v.used_count ≥ v.usage_limit then (db, VResult.voucherLimit)
      else (db, VResult.ok v.id v.code v.discount_amount)

/-! ### Admin voucher operations (lines 2203-2259) -/

/-- PATCH /api/admin/vouchers/:id/toggle:
`UPDATE vouchers SET is_active = CASE WHEN is_active=1 THEN 0 ELSE 1 END WHERE id=?`. -/
def toggleVoucher (vid : Nat) (db : DB) : DB :=
  let vs := db.vouchers.map
    (fun v => if v.id = vid then { v with is_active := !v.is_active } else v)
  { db with vouchers := vs }

/-- DELETE /api/admin/vouchers/:id. -/
def deleteVoucher (vid : Nat) (db : DB) : DB :=
  { db with vouchers := db.vouchers.filter (fun v => !(v.id == vid)) }

/-- POST /api/admin/vouchers: the INSERT of line 2224, which sets
`is_active=1` and leaves `used_count` at its schema default 0.  `code` is
the already-uniquified code the handler computed, `vid` the fresh row id. -/
def addVoucher (vid : Nat) (code : String) (disc vfrom vto ulimit : Int) (db : DB) : DB :=
  { db with vouchers := db.vouchers ++ [{
      id := vid, code := code, discount_amount := disc, valid_from := vfrom,
      valid_to := vto, usage_limit := ulimit, used_count := 0, is_active := true }] }

/-! ### Concrete fixtures used by witnesses and counterexamples -/

/-- A concrete active product, price 200000 (the worked example of the spec). -/
def demoProduct : Product :=
  { id := 7, name := "shirt", price := 200000, is_active := true }

/-- A concrete active voucher: 50000 off, window [0,100], limit 2, unused. -/
def demoVoucher : Voucher :=
  { id := 1, code := "SAVE", discount_amount := 50000, valid_from := 0, valid_to := 100,
    usage_limit := 2, used_count := 0, is_active := true }

/-- A store with the demo product and the demo voucher. -/
def demoDB : DB := { products := [demoProduct], orders := [], vouchers := [demoVoucher] }

/-- A well-formed order request redeeming the demo voucher (mixed-case,
padded code). -/
def demoInput : OrderInput :=
  { customer_name := "Ann", customer_phone := "0123", customer_address := "Hanoi",
    product_id := 7, color := "", size := "", quantity := some 2, note := "",
    voucher_code := " save " }

/-- The same request with no voucher code. -/
def demoInputNoV : OrderInput := { demoInput with voucher_code := "" }

/-! ### HTTP response shape of POST /api/orders -/

/-- JSON body and HTTP status as returned by the order handler.  Fields
absent from a given return site are `none`. -/
structure OrderResponse where
  success : Bool
  error : Option String
  order_code : Option String
  id : Option Nat
  discount : Option Int
  total : Option Int
  status : Nat
deriving Repr, DecidableEq

/-- The `c.json(...)` call of each return site of the order handler
(lines 2063, 2067, 2079, 2083, 2117, 2119).  `emsg` is the message of the
exception on the 500 path, `nid` the `last_row_id` of the INSERT. -/
def orderResponse (emsg : String) (nid : Nat) : OrderResult → OrderResponse
  | OrderResult.missingFields =>
      { success := false, error := some "Missing required fields", order_code := none,
        id := none, discount := none, total := none, status := 400 }
  | OrderResult.productNotFound =>
      { success := false, error := some "Product not found", order_code := none,
        id := none, discount := none, total := none, status := 404 }
  | OrderResult.invalidVoucher =>
      { success := false, error := some "INVALID_VOUCHER", order_code := none,
        id := none, discount := none, total := none, status := 400 }
  | OrderResult.voucherLimit =>
      { success := false, error := some "VOUCHER_LIMIT", order_code := none,
        id := none, discount := none, total := none, status := 400 }
  | OrderResult.insertFailed =>
      { success := false, error := some emsg, order_code := none,
        id := none, discount := none, total := none, status := 500 }
  | OrderResult.ok oc d t =>
      { success := true, error := none, order_code := some oc,
        id := some nid, discount := some d, total := some t, status := 200 }

/-! ### Sequential redemption: iterated state -/

/-- The effect of `UPDATE vouchers SET used_count=used_count+1` on the one
matched row. -/
def bumpUsed (v : Voucher) : Voucher := { v with used_count := v.used_count + 1 }

/-- The state after `k` sequential runs of the order handler on the same
request, every INSERT succeeding. -/
def runOrders (inp : OrderInput) (now : Int) : Nat → DB → DB
  | 0, db => db
  | Nat.succ k, db => (createOrder inp now true (runOrders inp now k db)).1

/-- The spec invariant: `used_count <= usage_limit` whenever
`usage_limit > 0`, for every voucher row of the store. -/
def dbInv (db : DB) : Prop :=
  ∀ w ∈ db.vouchers, 0 < w.usage_limit → w.used_count ≤ w.usage_limit

instance (db : DB) : Decidable (dbInv db) := by
  unfold dbInv
  infer_instance

/-! ### Properties of trim and toUpper -/

theorem toNat_ofNat_valid (n : Nat) (h : n.isValidChar) :
    (Char.ofNat n).toNat = n := by
  rw [Char.ofNat, dif_pos h]
  rfl

theorem toUpper_toNat_of_lower (c : Char) (h1 : 97 ≤ c.toNat) (h2 : c.toNat ≤ 122) :
    c.toUpper.toNat = c.toNat - 32 := by
  have hv : (c.toNat - 32).isValidChar := Or.inl (by omega)
  simp only [Char.toUpper, ge_iff_le, h1, h2, and_true, if_pos, if_true]
  exact toNat_ofNat_valid _ hv

theorem toUpper_of_not_lower (c : Char) (h : ¬(97 ≤ c.toNat ∧ c.toNat ≤ 122)) :
    c.toUpper = c := by
  simp only [Char.toUpper]
  rw [if_neg h]

theorem toNat_eq_of_eq {c d : Char} (h : c = d) : c.toNat = d.toNat := by
  rw [h]

theorem isWhitespace_eq_false_of_ge (c : Char) (h : 65 ≤ c.toNat) :
    c.isWhitespace = false := by
  simp only [Char.isWhitespace]
  have h1 : c ≠ ' ' := fun he => by have := toNat_eq_of_eq he; simp at this; omega
  have h2 : c ≠ '\t' := fun he => by have := toNat_eq_of_eq he; simp at this; omega
  have h3 : c ≠ '\r' := fun he => by have := toNat_eq_of_eq he; simp at this; omega
  have h4 : c ≠ '\n' := fun he => by have := toNat_eq_of_eq he; simp at this; omega
  simp [h1, h2, h3, h4]

/-- `toUpper` maps no character into or out of the whitespace set. -/
theorem isWhitespace_toUpper (c : Char) :
    c.toUpper.isWhitespace = c.isWhitespace := by
  by_cases h : 97 ≤ c.toNat ∧ c.toNat ≤ 122
  · have hup : c.toUpper.toNat = c.toNat - 32 := toUpper_toNat_of_lower c h.1 h.2
    rw [isWhitespace_eq_false_of_ge c.toUpper (by omega),
        isWhitespace_eq_false_of_ge c (by omega)]
  · rw [toUpper_of_not_lower c h]

/-- `toUpper` is idempotent. -/
theorem toUpper_toUpper (c : Char) : c.toUpper.toUpper = c.toUpper := by
  by_cases h : 97 ≤ c.toNat ∧ c.toNat ≤ 122
  · have hup : c.toUpper.toNat = c.toNat - 32 := toUpper_toNat_of_lower c h.1 h.2
    exact toUpper_of_not_lower _ (by omega)
  · rw [toUpper_of_not_lower c h, toUpper_of_not_lower c h]

theorem ltrim_map_toUpper (l : List Char) :
    ltrim (l.map Char.toUpper) = (ltrim l).map Char.toUpper := by
  simp only [ltrim]
  induction l with
  | nil => rfl
  | cons c t ih =>
    simp only [List.map_cons, List.dropWhile_cons, isWhitespace_toUpper]
    by_cases h : c.isWhitespace
    · simp [h, ih]
    · simp [h]

theorem rtrim_map_toUpper (l : List Char) :
    rtrim (l.map Char.toUpper) = (rtrim l).map Char.toUpper := by
  simp only [rtrim, ← List.map_reverse, ltrim_map_toUpper]

theorem trimChars_map_toUpper (l : List Char) :
    trimChars (l.map Char.toUpper) = (trimChars l).map Char.toUpper := by
  simp only [trimChars, ltrim_map_toUpper, rtrim_map_toUpper]

theorem ltrim_ltrim (l : List Char) : ltrim (ltrim l) = ltrim l := by
  simp only [ltrim]
  induction l with
  | nil => rfl
  | cons c t ih =>
    by_cases h : c.isWhitespace
    · simp only [List.dropWhile_cons, h, if_true]
      exact ih
    · simp [List.dropWhile_cons, h]

theorem rtrim_rtrim (l : List Char) : rtrim (rtrim l) = rtrim l := by
  simp only [rtrim, List.reverse_reverse, ltrim_ltrim]

/-- `rtrim` only removes elements from the right: the result is a prefix. -/
theorem rtrim_pref (l : List Char) : rtrim l <+: l := by
  simp only [rtrim, ltrim]
  conv_rhs => rw [← List.reverse_reverse l]
  rw [ List.reverse_prefix]
  exact List.dropWhile_suffix _

theorem ltrim_of_pref {l m : List Char} (hp : m <+: l) (h : ltrim l = l) :
    ltrim m = m := by
  cases m with
  | nil => rfl
  | cons c t =>
    obtain ⟨r, hr⟩ := hp
    cases l with
    | nil => simp at hr
    | cons c0 t0 =>
      have hc : c0 = c := by
        have := hr
        simp only [List.cons_append] at this
        exact (List.cons.injEq _ _ _ _ ▸ this).1.symm
      subst hc
      simp only [ltrim, List.dropWhile_cons] at h ⊢
      by_cases hw : c0.isWhitespace
      · exfalso
        rw [if_pos hw] at h
        have hlen := congrArg List.length h
        have := (List.dropWhile_suffix (l := t0) Char.isWhitespace).length_le
        simp at hlen
        omega
      · rw [if_neg hw]

theorem ltrim_rtrim_ltrim (l : List Char) :
    ltrim (rtrim (ltrim l)) = rtrim (ltrim l) :=
  ltrim_of_pref (rtrim_pref (ltrim l)) (ltrim_ltrim l)

theorem trimChars_trimChars (l : List Char) :
    trimChars (trimChars l) = trimChars l := by
  simp only [trimChars]
  rw [ltrim_rtrim_ltrim, rtrim_rtrim]

/-- A normalised code is already trimmed. -/
theorem trimChars_norm (l : List Char) :
    trimChars ((trimChars l).map Char.toUpper) = (trimChars l).map Char.toUpper := by
  rw [trimChars_map_toUpper, trimChars_trimChars]

/-- Normalisation (trim then uppercase) is idempotent. -/
theorem normCode_normCode (s : String) : normCode (normCode s) = normCode s := by
  simp only [normCode]
  rw [trimChars_norm]
  congr 1
  rw [List.map_map]
  have : Char.toUpper ∘ Char.toUpper = Char.toUpper := by
    funext c
    exact toUpper_toUpper c
  rw [this]

/-- Trimming a normalised code changes nothing. -/
theorem trimStr_normCode (s : String) : trimStr (normCode s) = normCode s := by
  simp only [trimStr, normCode]
  rw [trimChars_norm]

/-! ### Unfolding lemmas: one per return site of the order handler -/

theorem createOrder_of_missing (inp : OrderInput) (now : Int) (insertOk : Bool) (db : DB)
    (h : missingReq inp) :
    createOrder inp now insertOk db = (db, OrderResult.missingFields) := by
  simp [createOrder, h]

theorem createOrder_of_noProduct (inp : OrderInput) (now : Int) (insertOk : Bool) (db : DB)
    (hm : ¬ missingReq inp)
    (hp : db.products.find? (productMatches inp.product_id) = none) :
    createOrder inp now insertOk db = (db, OrderResult.productNotFound) := by
  simp [createOrder, hm, hp]

theorem createOrder_of_noVoucher (inp : OrderInput) (now : Int) (insertOk : Bool) (db : DB)
    (product : Product) (hm : ¬ missingReq inp)
    (hp : db.products.find? (productMatches inp.product_id) = some product)
    (hg : ¬ voucherGiven inp) :
    createOrder inp now insertOk db =
      finishOrder inp now insertOk product (qtyOf inp.quantity) 0 db := by
  simp [createOrder, hm, hp, hg]

theorem createOrder_of_invalid (inp : OrderInput) (now : Int) (insertOk : Bool) (db : DB)
    (product : Product) (hm : ¬ missingReq inp)
    (hp : db.products.find? (productMatches inp.product_id) = some product)
    (hg : voucherGiven inp)
    (hf : db.vouchers.find? (voucherMatches (normCode inp.voucher_code) now) = none) :
    createOrder inp now insertOk db = (db, OrderResult.invalidVoucher) := by
  simp [createOrder, hm, hp, hg, hf]

theorem createOrder_of_limit (inp : OrderInput) (now : Int) (insertOk : Bool) (db : DB)
    (product : Product) (v : Voucher) (hm : ¬ missingReq inp)
    (hp : db.products.find? (productMatches inp.product_id) = some product)
    (hg : voucherGiven inp)
    (hf : db.vouchers.find? (voucherMatches (normCode inp.voucher_code) now) = some v)
    (hl : v.usage_limit > 0 ∧ v.used_count ≥ v.usage_limit) :
    createOrder inp now insertOk db = (db, OrderResult.voucherLimit) := by
  simp [createOrder, hm, hp, hg, hf, hl]

theorem createOrder_of_voucher (inp : OrderInput) (now : Int) (insertOk : Bool) (db : DB)
    (product : Product) (v : Voucher) (hm : ¬ missingReq inp)
    (hp : db.products.find? (productMatches inp.product_id) = some product)
    (hg : voucherGiven inp)
    (hf : db.vouchers.find? (voucherMatches (normCode inp.voucher_code) now) = some v)
    (hl : ¬ (v.usage_limit > 0 ∧ v.used_count ≥ v.usage_limit)) :
    createOrder inp now insertOk db =
      finishOrder inp now insertOk product (qtyOf inp.quantity) v.discount_amount
        { db with vouchers := incrVouchers v.id db.vouchers } := by
  simp [createOrder, hm, hp, hg, hf, hl]

theorem finishOrder_fst_true (inp : OrderInput) (now : Int) (product : Product)
    (qty discount : Int) (db : DB) :
    (finishOrder inp now true product qty discount db).1 =
      { db with orders := db.orders ++ [newOrderRow inp now product qty discount] } := by
  simp [finishOrder]

theorem finishOrder_snd_true (inp : OrderInput) (now : Int) (product : Product)
    (qty discount : Int) (db : DB) :
    (finishOrder inp now true product qty discount db).2 =
      OrderResult.ok (genOrderCode now) discount (orderTotal product.price qty discount) := by
  simp [finishOrder]

theorem finishOrder_false (inp : OrderInput) (now : Int) (product : Product)
    (qty discount : Int) (db : DB) :
    finishOrder inp now false product qty discount db = (db, OrderResult.insertFailed) := by
  simp [finishOrder]

/-- The second component of `finishOrder` is a success or the 500 path,
never one of the four validation errors. -/
theorem finishOrder_snd_cases (inp : OrderInput) (now : Int) (insertOk : Bool)
    (product : Product) (qty discount : Int) (db : DB) :
    (finishOrder inp now insertOk product qty discount db).2 =
        OrderResult.ok (genOrderCode now) discount (orderTotal product.price qty discount) ∨
      (finishOrder inp now insertOk product qty discount db).2 = OrderResult.insertFailed := by
  cases insertOk
  · right; simp [finishOrder]
  · left; simp [finishOrder]

/-- Every run that ends in one of the four validation errors leaves the
whole datastore untouched (all four error returns precede the UPDATE and
the INSERT). -/
theorem createOrder_error_frame (inp : OrderInput) (now : Int) (insertOk : Bool) (db : DB)
    (herr : (createOrder inp now insertOk db).2 = OrderResult.missingFields ∨
            (createOrder inp now insertOk db).2 = OrderResult.productNotFound ∨
            (createOrder inp now insertOk db).2 = OrderResult.invalidVoucher ∨
            (createOrder inp now insertOk db).2 = OrderResult.voucherLimit) :
    (createOrder inp now insertOk db).1 = db := by
  by_cases hm : missingReq inp
  · rw [createOrder_of_missing inp now insertOk db hm]
  · cases hp : db.products.find? (productMatches inp.product_id) with
    | none => rw [createOrder_of_noProduct inp now insertOk db hm hp]
    | some product =>
      by_cases hg : voucherGiven inp
      · cases hf : db.vouchers.find? (voucherMatches (normCode inp.voucher_code) now) with
        | none => rw [createOrder_of_invalid inp now insertOk db product hm hp hg hf]
        | some v =>
          by_cases hl : v.usage_limit > 0 ∧ v.used_count ≥ v.usage_limit
          · rw [createOrder_of_limit inp now insertOk db product v hm hp hg hf hl]
          · exfalso
            rw [createOrder_of_voucher inp now insertOk db product v hm hp hg hf hl] at herr
            rcases finishOrder_snd_cases inp now insertOk product (qtyOf inp.quantity)
                v.discount_amount { db with vouchers := incrVouchers v.id db.vouchers }
              with hc | hc <;> rw [hc] at herr <;> simp at herr
      · exfalso
        rw [createOrder_of_noVoucher inp now insertOk db product hm hp hg] at herr
        rcases finishOrder_snd_cases inp now insertOk product (qtyOf inp.quantity) 0 db
          with hc | hc <;> rw [hc] at herr <;> simp at herr

/-! ### Claims -/

/-- C2: order pricing computes `subtotal = productPrice * qty` and
`total = max 0 (subtotal - discount)`, so for non-negative price, quantity
and discount the total is never negative; and a run of the order handler
with no voucher applied has discount 0 and total exactly `price * qty`. -/
theorem c2_order_pricing (p q d : Int) (inp : OrderInput) (now : Int) (db : DB)
    (product : Product)
    (hp0 : 0 ≤ p) (hq0 : 0 ≤ q) (hd0 : 0 ≤ d)
    (hm : ¬ missingReq inp)
    (hp : db.products.find? (productMatches inp.product_id) = some product)
    (hg : ¬ voucherGiven inp)
    (hpr : 0 ≤ product.price) (hqty : 0 ≤ qtyOf inp.quantity) :
    orderTotal p q d = max 0 (p * q - d) ∧
    0 ≤ orderTotal p q d ∧
    (createOrder inp now true db).2 =
      OrderResult.ok (genOrderCode now) 0 (product.price * qtyOf inp.quantity) := by
  refine ⟨rfl, le_max_left _ _, ?_⟩
  rw [createOrder_of_noVoucher inp now true db product hm hp hg,
      finishOrder_snd_true]
  have : orderTotal product.price (qtyOf inp.quantity) 0 =
      product.price * qtyOf inp.quantity := by
    simp only [orderTotal, sub_zero]
    exact max_eq_right (mul_nonneg hpr hqty)
  rw [this]

/-- C2 witness: the spec's worked example, price 200000, qty 2, no
voucher: the run succeeds with discount 0 and total 400000. -/
theorem c2_order_pricing_witness :
    (createOrder demoInputNoV 50 true demoDB).2 =
      OrderResult.ok (genOrderCode 50) 0 (demoProduct.price * qtyOf demoInputNoV.quantity) :=
  (c2_order_pricing 200000 2 50000 demoInputNoV 50 demoDB demoProduct
    (by decide) (by decide) (by decide) (by decide) (by decide) (by decide)
    (by decide) (by decide)).2.2

/-- C6: every run of the order handler that ends in one of the four
validation errors (missing fields, product not found, INVALID_VOUCHER,
VOUCHER_LIMIT) leaves the datastore — orders table and every voucher row —
exactly as it was: all four error returns happen before any write. -/
theorem c6_no_write_before_validation (inp : OrderInput) (now : Int) (insertOk : Bool)
    (db : DB)
    (herr : (createOrder inp now insertOk db).2 = OrderResult.missingFields ∨
            (createOrder inp now insertOk db).2 = OrderResult.productNotFound ∨
            (createOrder inp now insertOk db).2 = OrderResult.invalidVoucher ∨
            (createOrder inp now insertOk db).2 = OrderResult.voucherLimit) :
    (createOrder inp now insertOk db).1.orders = db.orders ∧
    (createOrder inp now insertOk db).1.vouchers = db.vouchers := by
  rw [createOrder_error_frame inp now insertOk db herr]
  exact ⟨rfl, rfl⟩

/-- C6 witness: an expired-window request (now = 200 is past valid_to =
100) fails INVALID_VOUCHER and changes nothing. -/
theorem c6_no_write_before_validation_witness :
    (createOrder demoInput 200 true demoDB).1.orders = demoDB.orders ∧
    (createOrder demoInput 200 true demoDB).1.vouchers = demoDB.vouchers :=
  c6_no_write_before_validation demoInput 200 true demoDB (Or.inr (Or.inr (Or.inl (by decide))))

/-- State purity of the validate endpoint, as a reusable lemma. -/
theorem validateVoucherRun_fst (code : String) (now : Int) (db : DB) :
    (validateVoucherRun code now db).1 = db := by
  unfold validateVoucherRun
  by_cases h : code = ""
  · simp [h]
  · simp only [h, if_false, ite_false]
    cases hf : db.vouchers.find? (voucherMatches (normCode code) now) with
    | none => simp
    | some v =>
      by_cases hl : v.usage_limit > 0 ∧ v.used_count ≥ v.usage_limit
      · simp [hl]
      · simp [hl]

/-- C8: the voucher-validate endpoint is a pure read: its only datastore
statement is a SELECT, so for every input and state the datastore after
the call — products, orders and vouchers, `used_count` included — is the
state before it, on success and on every failure alike. -/
theorem c8_validate_pure_read (code : String) (now : Int) (db : DB) :
    (validateVoucherRun code now db).1 = db :=
  validateVoucherRun_fst code now db

/-- C5: a matched voucher with `usage_limit = 0` is treated as unlimited:
whatever its `used_count`, neither the order handler nor the validate
endpoint ever answers VOUCHER_LIMIT for it. -/
theorem c5_zero_limit_unlimited :
    (∀ (inp : OrderInput) (now : Int) (insertOk : Bool) (db : DB) (v : Voucher),
      db.vouchers.find? (voucherMatches (normCode inp.voucher_code) now) = some v →
      v.usage_limit = 0 →
      (createOrder inp now insertOk db).2 ≠ OrderResult.voucherLimit) ∧
    (∀ (code : String) (now : Int) (db : DB) (v : Voucher),
      db.vouchers.find? (voucherMatches (normCode code) now) = some v →
      v.usage_limit = 0 →
      (validateVoucherRun code now db).2 ≠ VResult.voucherLimit) := by
  constructor
  · intro inp now insertOk db v hf h0
    by_cases hm : missingReq inp
    · rw [createOrder_of_missing inp now insertOk db hm]; simp
    · cases hp : db.products.find? (productMatches inp.product_id) with
      | none => rw [createOrder_of_noProduct inp now insertOk db hm hp]; simp
      | some product =>
        by_cases hg : voucherGiven inp
        · have hl : ¬ (v.usage_limit > 0 ∧ v.used_count ≥ v.usage_limit) := by
            rw [h0]; simp
          rw [createOrder_of_voucher inp now insertOk db product v hm hp hg hf hl]
          rcases finishOrder_snd_cases inp now insertOk product (qtyOf inp.quantity)
              v.discount_amount { db with vouchers := incrVouchers v.id db.vouchers }
            with hc | hc <;> rw [hc] <;> simp
        · rw [createOrder_of_noVoucher inp now insertOk db product hm hp hg]
          rcases finishOrder_snd_cases inp now insertOk product (qtyOf inp.quantity) 0 db
            with hc | hc <;> rw [hc] <;> simp
  · intro code now db v hf h0
    unfold validateVoucherRun
    by_cases h : code = ""
    · simp [h]
    · have hl : ¬ (v.usage_limit > 0 ∧ v.used_count ≥ v.usage_limit) := by
        rw [h0]; simp
      simp [h, hf, hl]

/-- C5 witness: a voucher with usage_limit 0 and used_count 5 is matched
and neither endpoint answers VOUCHER_LIMIT. -/
theorem c5_zero_limit_unlimited_witness :
    (createOrder demoInput 50 true
        { demoDB with vouchers := [{ demoVoucher with usage_limit := 0, used_count := 5 }] }).2 ≠
      OrderResult.voucherLimit ∧
    (validateVoucherRun "save" 50
        { demoDB with vouchers := [{ demoVoucher with usage_limit := 0, used_count := 5 }] }).2 ≠
      VResult.voucherLimit :=
  ⟨c5_zero_limit_unlimited.1 demoInput 50 true
      { demoDB with vouchers := [{ demoVoucher with usage_limit := 0, used_count := 5 }] }
      { demoVoucher with usage_limit := 0, used_count := 5 } (by decide) (by decide),
   c5_zero_limit_unlimited.2 "save" 50
      { demoDB with vouchers := [{ demoVoucher with usage_limit := 0, used_count := 5 }] }
      { demoVoucher with usage_limit := 0, used_count := 5 } (by decide) (by decide)⟩

/-- No voucher row passes the WHERE clause when the unique holder of the
code is outside its validity window. -/
theorem find?_none_of_window (c : String) (now : Int) (db : DB) (v : Voucher)
    (hv : v ∈ db.vouchers) (hcode : v.code = c)
    (huniq : ∀ w ∈ db.vouchers, w.code = c → w = v)
    (hw : ¬ (v.valid_from ≤ now ∧ now ≤ v.valid_to)) :
    db.vouchers.find? (voucherMatches c now) = none := by
  rw [List.find?_eq_none]
  intro w hwmem hmatch
  simp only [voucherMatches, Bool.and_eq_true, beq_iff_eq, decide_eq_true_eq] at hmatch
  have hwv : w = v := huniq w hwmem hmatch.1.1.1
  rw [hwv] at hmatch
  exact hw ⟨hmatch.1.2, hmatch.2⟩

/-- C4: with a voucher code supplied, both the order handler and the
validate endpoint answer INVALID_VOUCHER exactly when no active voucher
row matches the normalised code with `valid_from <= now <= valid_to`; in
particular, when the sole voucher carrying the code has a validity window
that excludes `now`, validation of that code answers INVALID_VOUCHER in
both endpoints. -/
theorem c4_invalid_voucher_iff :
    (∀ (inp : OrderInput) (now : Int) (insertOk : Bool) (db : DB) (product : Product),
      ¬ missingReq inp →
      db.products.find? (productMatches inp.product_id) = some product →
      voucherGiven inp →
      ((createOrder inp now insertOk db).2 = OrderResult.invalidVoucher ↔
        db.vouchers.find? (voucherMatches (normCode inp.voucher_code) now) = none)) ∧
    (∀ (code : String) (now : Int) (db : DB), code ≠ "" →
      ((validateVoucherRun code now db).2 = VResult.invalidVoucher ↔
        db.vouchers.find? (voucherMatches (normCode code) now) = none)) ∧
    (∀ (inp : OrderInput) (now : Int) (insertOk : Bool) (db : DB) (product : Product)
        (v : Voucher),
      ¬ missingReq inp →
      db.products.find? (productMatches inp.product_id) = some product →
      voucherGiven inp →
      v ∈ db.vouchers → v.code = normCode inp.voucher_code →
      (∀ w ∈ db.vouchers, w.code = normCode inp.voucher_code → w = v) →
      ¬ (v.valid_from ≤ now ∧ now ≤ v.valid_to) →
      (createOrder inp now insertOk db).2 = OrderResult.invalidVoucher) ∧
    (∀ (code : String) (now : Int) (db : DB) (v : Voucher), code ≠ "" →
      v ∈ db.vouchers → v.code = normCode code →
      (∀ w ∈ db.vouchers, w.code = normCode code → w = v) →
      ¬ (v.valid_from ≤ now ∧ now ≤ v.valid_to) →
      (validateVoucherRun code now db).2 = VResult.invalidVoucher) := by
  have part1 : ∀ (inp : OrderInput) (now : Int) (insertOk : Bool) (db : DB)
      (product : Product),
      ¬ missingReq inp →
      db.products.find? (productMatches inp.product_id) = some product →
      voucherGiven inp →
      ((createOrder inp now insertOk db).2 = OrderResult.invalidVoucher ↔
        db.vouchers.find? (voucherMatches (normCode inp.voucher_code) now) = none) := by
    intro inp now insertOk db product hm hp hg
    constructor
    · intro hres
      cases hf : db.vouchers.find? (voucherMatches (normCode inp.voucher_code) now) with
      | none => rfl
      | some v =>
        exfalso
        by_cases hl : v.usage_limit > 0 ∧ v.used_count ≥ v.usage_limit
        · rw [createOrder_of_limit inp now insertOk db product v hm hp hg hf hl] at hres
          simp at hres
        · rw [createOrder_of_voucher inp now insertOk db product v hm hp hg hf hl] at hres
          rcases finishOrder_snd_cases inp now insertOk product (qtyOf inp.quantity)
              v.discount_amount { db with vouchers := incrVouchers v.id db.vouchers }
            with hc | hc <;> rw [hc] at hres <;> simp at hres
    · intro hf
      rw [createOrder_of_invalid inp now insertOk db product hm hp hg hf]
  have part2 : ∀ (code : String) (now : Int) (db : DB), code ≠ "" →
      ((validateVoucherRun code now db).2 = VResult.invalidVoucher ↔
        db.vouchers.find? (voucherMatches (normCode code) now) = none) := by
    intro code now db hc
    unfold validateVoucherRun
    constructor
    · intro hres
      cases hf : db.vouchers.find? (voucherMatches (normCode code) now) with
      | none => rfl
      | some v =>
        exfalso
        by_cases hl : v.usage_limit > 0 ∧ v.used_count ≥ v.usage_limit
        · simp [hc, hf, hl] at hres
        · simp [hc, hf, hl] at hres
    · intro hf
      simp [hc, hf]
  refine ⟨part1, part2, ?_, ?_⟩
  · intro inp now insertOk db product v hm hp hg hv hcode huniq hw
    exact (part1 inp now insertOk db product hm hp hg).2
      (find?_none_of_window (normCode inp.voucher_code) now db v hv hcode huniq hw)
  · intro code now db v hc hv hcode huniq hw
    exact (part2 code now db hc).2
      (find?_none_of_window (normCode code) now db v hv hcode huniq hw)

/-- C4 witness: at now = 200 the demo voucher's window [0,100] has passed;
both endpoints answer INVALID_VOUCHER on its code. -/
theorem c4_invalid_voucher_iff_witness :
    (createOrder demoInput 200 true demoDB).2 = OrderResult.invalidVoucher ∧
    (validateVoucherRun "save" 200 demoDB).2 = VResult.invalidVoucher :=
  ⟨c4_invalid_voucher_iff.2.2.1 demoInput 200 true demoDB demoProduct demoVoucher
      (by decide) (by decide) (by decide) (by decide) (by decide)
      (by decide) (by decide),
   c4_invalid_voucher_iff.2.2.2 "save" 200 demoDB demoVoucher
      (by decide) (by decide) (by decide) (by decide) (by decide)⟩

/-- C9: the order endpoint's response is `{success, order_code, discount,
total}` on success, and `{success: false, error}` on failure with the
error string determined by the validation failure: Missing required
fields, Product not found, INVALID_VOUCHER or VOUCHER_LIMIT. -/
theorem c9_response_shape (inp : OrderInput) (now : Int) (insertOk : Bool) (db : DB)
    (emsg : String) (nid : Nat) :
    ((orderResponse emsg nid (createOrder inp now insertOk db).2).success = true →
      ∃ oc d t, (createOrder inp now insertOk db).2 = OrderResult.ok oc d t ∧
        orderResponse emsg nid (createOrder inp now insertOk db).2 =
          { success := true, error := none, order_code := some oc, id := some nid,
            discount := some d, total := some t, status := 200 }) ∧
    ((createOrder inp now insertOk db).2 = OrderResult.missingFields →
      orderResponse emsg nid (createOrder inp now insertOk db).2 =
        { success := false, error := some "Missing required fields", order_code := none,
          id := none, discount := none, total := none, status := 400 }) ∧
    ((createOrder inp now insertOk db).2 = OrderResult.productNotFound →
      orderResponse emsg nid (createOrder inp now insertOk db).2 =
        { success := false, error := some "Product not found", order_code := none,
          id := none, discount := none, total := none, status := 404 }) ∧
    ((createOrder inp now insertOk db).2 = OrderResult.invalidVoucher →
      orderResponse emsg nid (createOrder inp now insertOk db).2 =
        { success := false, error := some "INVALID_VOUCHER", order_code := none,
          id := none, discount := none, total := none, status := 400 }) ∧
    ((createOrder inp now insertOk db).2 = OrderResult.voucherLimit →
      orderResponse emsg nid (createOrder inp now insertOk db).2 =
        { success := false, error := some "VOUCHER_LIMIT", order_code := none,
          id := none, discount := none, total := none, status := 400 }) := by
  refine ⟨?_, ?_, ?_, ?_, ?_⟩
  · intro hs
    cases hres : (createOrder inp now insertOk db).2 with
    | ok oc d t => exact ⟨oc, d, t, rfl, rfl⟩
    | missingFields => rw [hres] at hs; simp [orderResponse] at hs
    | productNotFound => rw [hres] at hs; simp [orderResponse] at hs
    | invalidVoucher => rw [hres] at hs; simp [orderResponse] at hs
    | voucherLimit => rw [hres] at hs; simp [orderResponse] at hs
    | insertFailed => rw [hres] at hs; simp [orderResponse] at hs
  · intro h; rw [h]; rfl
  · intro h; rw [h]; rfl
  · intro h; rw [h]; rfl
  · intro h; rw [h]; rfl

/-- C9 witness: the VOUCHER_LIMIT failure (demo voucher exhausted) maps to
the 400 body with error VOUCHER_LIMIT. -/
theorem c9_response_shape_witness :
    orderResponse "boom" 1
        (createOrder demoInput 50 true
          { demoDB with vouchers := [{ demoVoucher with used_count := 2 }] }).2 =
      { success := false, error := some "VOUCHER_LIMIT", order_code := none,
        id := none, discount := none, total := none, status := 400 } :=
  (c9_response_shape demoInput 50 true
      { demoDB with vouchers := [{ demoVoucher with used_count := 2 }] }
      "boom" 1).2.2.2.2 (by decide)

/-- C10: `qty = parseInt(quantity) || 1` — a missing or non-numeric
quantity (NaN) and a parsed 0 both fall back to 1, while any other parsed
integer, negative ones included, is used as-is; and every successful run
prices with that quantity and stores it on the inserted order row. -/
theorem c10_quantity_default :
    (qtyOf none = 1 ∧ qtyOf (some 0) = 1 ∧ ∀ n : Int, n ≠ 0 → qtyOf (some n) = n) ∧
    (∀ (inp : OrderInput) (now : Int) (db : DB) (oc : String) (d t : Int),
      (createOrder inp now true db).2 = OrderResult.ok oc d t →
      ∃ (product : Product) (r : Order),
        db.products.find? (productMatches inp.product_id) = some product ∧
        (createOrder inp now true db).1.orders = db.orders ++ [r] ∧
        r.quantity = qtyOf inp.quantity ∧
        r.total_price = t ∧
        t = orderTotal product.price (qtyOf inp.quantity) d) := by
  constructor
  · refine ⟨rfl, rfl, ?_⟩
    intro n hn
    simp [qtyOf, hn]
  · intro inp now db oc d t hok
    by_cases hm : missingReq inp
    · rw [createOrder_of_missing inp now true db hm] at hok; simp at hok
    · cases hp : db.products.find? (productMatches inp.product_id) with
      | none => rw [createOrder_of_noProduct inp now true db hm hp] at hok; simp at hok
      | some product =>
        by_cases hg : voucherGiven inp
        · cases hf : db.vouchers.find? (voucherMatches (normCode inp.voucher_code) now) with
          | none =>
            rw [createOrder_of_invalid inp now true db product hm hp hg hf] at hok
            simp at hok
          | some v =>
            by_cases hl : v.usage_limit > 0 ∧ v.used_count ≥ v.usage_limit
            · rw [createOrder_of_limit inp now true db product v hm hp hg hf hl] at hok
              simp at hok
            · rw [createOrder_of_voucher inp now true db product v hm hp hg hf hl] at hok
              rw [finishOrder_snd_true] at hok
              injection hok with h1 h2 h3
              rw [createOrder_of_voucher inp now true db product v hm hp hg hf hl,
                  finishOrder_fst_true]
              refine ⟨product, newOrderRow inp now product (qtyOf inp.quantity)
                v.discount_amount, rfl, rfl, rfl, ?_, ?_⟩
              · exact h3
              · rw [← h2]
                exact h3.symm
        · rw [createOrder_of_noVoucher inp now true db product hm hp hg] at hok
          rw [finishOrder_snd_true] at hok
          injection hok with h1 h2 h3
          rw [createOrder_of_noVoucher inp now true db product hm hp hg,
              finishOrder_fst_true]
          refine ⟨product, newOrderRow inp now product (qtyOf inp.quantity) 0,
            rfl, rfl, rfl, ?_, ?_⟩
          · exact h3
          · rw [← h2]
            exact h3.symm

/-- C10 witness: a request with quantity parsed as 0 succeeds with
quantity 1 on the stored row (total one unit's price minus discount). -/
theorem c10_quantity_default_witness :
    qtyOf (some 0) = 1 ∧
    ∃ (product : Product) (r : Order),
      demoDB.products.find? (productMatches demoInput.product_id) = some product ∧
      (createOrder { demoInput with quantity := some 0 } 50 true demoDB).1.orders =
        demoDB.orders ++ [r] ∧
      r.quantity = qtyOf ({ demoInput with quantity := some 0 } : OrderInput).quantity ∧
      r.total_price = 150000 ∧
      (150000 : Int) = orderTotal product.price
        (qtyOf ({ demoInput with quantity := some 0 } : OrderInput).quantity) 50000 :=
  ⟨c10_quantity_default.1.2.1,
   c10_quantity_default.2 { demoInput with quantity := some 0 } 50 demoDB
     (genOrderCode 50) 50000 150000 (by decide)⟩

/-- C3 counterexample: a run in which the order INSERT fails (500 path)
after the voucher passed validation: the voucher's used_count has still
been incremented from 0 to 1 — the increment precedes the insert and is
not rolled back, so it is not true that every insert-failing run leaves
used_count unchanged. -/
theorem c3_counterexample :
    (createOrder demoInput 50 false demoDB).2 = OrderResult.insertFailed ∧
    demoDB.vouchers.map Voucher.used_count = [0] ∧
    (createOrder demoInput 50 false demoDB).1.vouchers.map Voucher.used_count = [1] := by
  decide

/-- C3 amended: the voucher's used_count is incremented as soon as
validation succeeds, before the order INSERT; in every run where the
INSERT then fails the increment persists (used_count goes up by one
with no rollback), while every run that fails validation leaves all
voucher rows unchanged. -/
theorem c3_increment_before_insert :
    (∀ (inp : OrderInput) (now : Int) (db : DB) (product : Product) (v : Voucher),
      ¬ missingReq inp →
      db.products.find? (productMatches inp.product_id) = some product →
      voucherGiven inp →
      db.vouchers.find? (voucherMatches (normCode inp.voucher_code) now) = some v →
      ¬ (v.usage_limit > 0 ∧ v.used_count ≥ v.usage_limit) →
      (createOrder inp now false db).2 = OrderResult.insertFailed ∧
      (createOrder inp now false db).1.vouchers = incrVouchers v.id db.vouchers) ∧
    (∀ (inp : OrderInput) (now : Int) (insertOk : Bool) (db : DB),
      ((createOrder inp now insertOk db).2 = OrderResult.missingFields ∨
       (createOrder inp now insertOk db).2 = OrderResult.productNotFound ∨
       (createOrder inp now insertOk db).2 = OrderResult.invalidVoucher ∨
       (createOrder inp now insertOk db).2 = OrderResult.voucherLimit) →
      (createOrder inp now insertOk db).1.vouchers = db.vouchers) := by
  constructor
  · intro inp now db product v hm hp hg hf hl
    rw [createOrder_of_voucher inp now false db product v hm hp hg hf hl,
        finishOrder_false]
    exact ⟨rfl, rfl⟩
  · intro inp now insertOk db herr
    rw [createOrder_error_frame inp now insertOk db herr]

/-- C3 amended witness: the concrete insert-failing run and a concrete
validation-failing run. -/
theorem c3_increment_before_insert_witness :
    ((createOrder demoInput 50 false demoDB).2 = OrderResult.insertFailed ∧
     (createOrder demoInput 50 false demoDB).1.vouchers =
       incrVouchers demoVoucher.id demoDB.vouchers) ∧
    (createOrder demoInput 200 true demoDB).1.vouchers = demoDB.vouchers :=
  ⟨c3_increment_before_insert.1 demoInput 50 demoDB demoProduct demoVoucher
      (by decide) (by decide) (by decide) (by decide) (by decide),
   c3_increment_before_insert.2 demoInput 200 true demoDB
      (Or.inr (Or.inr (Or.inl (by decide))))⟩

theorem normCode_empty : normCode "" = "" := rfl

theorem normCode_eq_empty_iff (s : String) : normCode s = "" ↔ trimStr s = "" := by
  simp only [normCode, trimStr]
  constructor
  · intro h
    have hd : (trimChars s.data).map Char.toUpper = [] := congrArg String.data h
    have he : trimChars s.data = [] := List.map_eq_nil.1 hd
    rw [he]
  · intro h
    have he : trimChars s.data = [] := congrArg String.data h
    rw [he]
    rfl

theorem ne_empty_of_trim_ne (s : String) (h : trimStr s ≠ "") : s ≠ "" := by
  intro he
  rw [he] at h
  exact h rfl

theorem voucherGiven_norm (inp : OrderInput) :
    voucherGiven { inp with voucher_code := normCode inp.voucher_code } ↔
      voucherGiven inp := by
  show normCode inp.voucher_code ≠ "" ∧ trimStr (normCode inp.voucher_code) ≠ "" ↔
    inp.voucher_code ≠ "" ∧ trimStr inp.voucher_code ≠ ""
  rw [trimStr_normCode]
  constructor
  · intro h
    have ht : trimStr inp.voucher_code ≠ "" :=
      fun he => h.1 ((normCode_eq_empty_iff inp.voucher_code).2 he)
    exact ⟨ne_empty_of_trim_ne _ ht, ht⟩
  · intro h
    have hn : normCode inp.voucher_code ≠ "" :=
      fun he => h.2 ((normCode_eq_empty_iff inp.voucher_code).1 he)
    exact ⟨hn, hn⟩

theorem storedCode_norm (s : String) :
    (if normCode s ≠ "" then normCode (normCode s) else "") =
      (if s ≠ "" then normCode s else "") := by
  by_cases h : trimStr s = ""
  · have hn : normCode s = "" := (normCode_eq_empty_iff s).2 h
    rw [hn]
    simp only [ne_eq, not_true_eq_false, if_false, ite_not]
    by_cases hs : s = ""
    · simp [hs]
    · simp [hs, hn]
  · have hn : normCode s ≠ "" := fun he => h ((normCode_eq_empty_iff s).1 he)
    have hs : s ≠ "" := ne_empty_of_trim_ne s h
    simp [hn, hs, normCode_normCode]

theorem newOrderRow_norm (inp : OrderInput) (now : Int) (product : Product)
    (qty discount : Int) :
    newOrderRow { inp with voucher_code := normCode inp.voucher_code } now product
        qty discount =
      newOrderRow inp now product qty discount := by
  simp only [newOrderRow]
  rw [Order.mk.injEq]
  refine ⟨rfl, rfl, rfl, rfl, rfl, rfl, rfl, rfl, rfl, rfl, rfl, ?_, rfl, rfl⟩
  exact storedCode_norm inp.voucher_code

theorem finishOrder_norm (inp : OrderInput) (now : Int) (insertOk : Bool)
    (product : Product) (qty discount : Int) (db : DB) :
    finishOrder { inp with voucher_code := normCode inp.voucher_code } now insertOk
        product qty discount db =
      finishOrder inp now insertOk product qty discount db := by
  cases insertOk
  · rfl
  · simp [finishOrder, newOrderRow_norm]

/-- C7 counterexample: the claim fails for the whitespace-only code,
input " ": it is truthy in the validate endpoint and yields
INVALID_VOUCHER, while its normalised form is the empty string, which the
endpoint rejects as MISSING_CODE — two different outcomes. -/
theorem c7_counterexample :
    normCode " " = "" ∧
    (validateVoucherRun " " 50 demoDB).2 = VResult.invalidVoucher ∧
    (validateVoucherRun (normCode " ") 50 demoDB).2 = VResult.missingCode := by
  decide

/-- C7 amended: voucher validation is insensitive to case and surrounding
whitespace of the code — replacing the code by its uppercased trimmed form
changes nothing — in the order handler for every code, and in the validate
endpoint for every code that is empty or does not trim to empty; the one
exception is a non-empty all-whitespace code at the validate endpoint
(the counterexample above). -/
theorem c7_code_normalization :
    (∀ (inp : OrderInput) (now : Int) (insertOk : Bool) (db : DB),
      createOrder { inp with voucher_code := normCode inp.voucher_code } now insertOk db =
        createOrder inp now insertOk db) ∧
    (∀ (code : String) (now : Int) (db : DB), code = "" ∨ trimStr code ≠ "" →
      validateVoucherRun (normCode code) now db = validateVoucherRun code now db) := by
  constructor
  · intro inp now insertOk db
    by_cases hm : missingReq inp
    · rw [createOrder_of_missing { inp with voucher_code := normCode inp.voucher_code }
          now insertOk db hm,
          createOrder_of_missing inp now insertOk db hm]
    · cases hp : db.products.find? (productMatches inp.product_id) with
      | none =>
        rw [createOrder_of_noProduct { inp with voucher_code := normCode inp.voucher_code }
            now insertOk db hm hp,
            createOrder_of_noProduct inp now insertOk db hm hp]
      | some product =>
        by_cases hg : voucherGiven inp
        · have hg2 : voucherGiven { inp with voucher_code := normCode inp.voucher_code } :=
            (voucherGiven_norm inp).2 hg
          cases hf : db.vouchers.find? (voucherMatches (normCode inp.voucher_code) now) with
          | none =>
            have hf2 : db.vouchers.find?
                (voucherMatches (normCode (normCode inp.voucher_code)) now) = none := by
              rw [normCode_normCode]
              exact hf
            rw [createOrder_of_invalid { inp with voucher_code := normCode inp.voucher_code }
                now insertOk db product hm hp hg2 hf2,
                createOrder_of_invalid inp now insertOk db product hm hp hg hf]
          | some v =>
            have hf2 : db.vouchers.find?
                (voucherMatches (normCode (normCode inp.voucher_code)) now) = some v := by
              rw [normCode_normCode]
              exact hf
            by_cases hl : v.usage_limit > 0 ∧ v.used_count ≥ v.usage_limit
            · rw [createOrder_of_limit { inp with voucher_code := normCode inp.voucher_code }
                  now insertOk db product v hm hp hg2 hf2 hl,
                  createOrder_of_limit inp now insertOk db product v hm hp hg hf hl]
            · rw [createOrder_of_voucher { inp with voucher_code := normCode inp.voucher_code }
                  now insertOk db product v hm hp hg2 hf2 hl,
                  createOrder_of_voucher inp now insertOk db product v hm hp hg hf hl,
                  finishOrder_norm]
        · have hg2 : ¬ voucherGiven { inp with voucher_code := normCode inp.voucher_code } :=
            fun h => hg ((voucherGiven_norm inp).1 h)
          rw [createOrder_of_noVoucher { inp with voucher_code := normCode inp.voucher_code }
              now insertOk db product hm hp hg2,
              createOrder_of_noVoucher inp now insertOk db product hm hp hg,
              finishOrder_norm]
  · intro code now db hc
    rcases hc with hc | hc
    · rw [hc, normCode_empty]
    · have hcn : normCode code ≠ "" := fun he => hc ((normCode_eq_empty_iff code).1 he)
      have hc0 : code ≠ "" := ne_empty_of_trim_ne code hc
      unfold validateVoucherRun
      rw [if_neg hcn, if_neg hc0, normCode_normCode]

/-- C7 amended witness: the mixed-case padded code " save " behaves like
its normal form "SAVE" in both endpoints. -/
theorem c7_code_normalization_witness :
    createOrder { demoInput with voucher_code := normCode demoInput.voucher_code }
        50 true demoDB =
      createOrder demoInput 50 true demoDB ∧
    validateVoucherRun (normCode " save ") 50 demoDB =
      validateVoucherRun " save " 50 demoDB :=
  ⟨c7_code_normalization.1 demoInput 50 true demoDB,
   c7_code_normalization.2 " save " 50 demoDB (Or.inr (by decide))⟩

/-! ### C1: sequential redemption and the used_count invariant -/

theorem iter_bumpUsed_usage_limit (k : Nat) (v : Voucher) :
    (bumpUsed^[k] v).usage_limit = v.usage_limit := by
  induction k with
  | zero => rfl
  | succ k ih => rw [Function.iterate_succ_apply', bumpUsed]; exact ih

theorem iter_bumpUsed_used_count (k : Nat) (v : Voucher) :
    (bumpUsed^[k] v).used_count = v.used_count + k := by
  induction k with
  | zero => simp
  | succ k ih =>
    rw [Function.iterate_succ_apply']
    show (bumpUsed^[k] v).used_count + 1 = v.used_count + ((k:Int) + 1)
    rw [ih]
    push_cast
    ring

theorem incrVouchers_map_id (vid : Nat) (vs : List Voucher) :
    (incrVouchers vid vs).map Voucher.id = vs.map Voucher.id := by
  induction vs with
  | nil => rfl
  | cons w t ih =>
    simp only [incrVouchers, List.map_cons] at ih ⊢
    by_cases h : w.id = vid
    · simp only [h, if_true, ih]
    · simp only [h, if_false, ih, ite_false]

/-- After the UPDATE targeting the found voucher's id, the same SELECT
finds the voucher again with used_count one higher (row ids are unique:
`id INTEGER PRIMARY KEY`). -/
theorem find?_incrVouchers (c : String) (now : Int) (vs : List Voucher) (v : Voucher)
    (hnd : (vs.map Voucher.id).Nodup)
    (hf : vs.find? (voucherMatches c now) = some v) :
    (incrVouchers v.id vs).find? (voucherMatches c now) = some (bumpUsed v) := by
  induction vs with
  | nil => simp at hf
  | cons w tail ih =>
    simp only [List.map_cons, List.nodup_cons] at hnd
    by_cases hw : voucherMatches c now w
    · rw [List.find?_cons_of_pos _ hw] at hf
      have hwv : w = v := by injection hf
      subst hwv
      have hw2 : voucherMatches c now (bumpUsed w) = true := hw
      have hlist : incrVouchers w.id (w :: tail) =
          bumpUsed w :: incrVouchers w.id tail := by
        unfold incrVouchers
        rw [List.map_cons, if_pos rfl]
        rfl
      rw [hlist, List.find?_cons_of_pos _ hw2]
    · rw [List.find?_cons_of_neg _ hw] at hf
      have hvmem : v ∈ tail := List.mem_of_find?_eq_some hf
      have hne : w.id ≠ v.id := by
        intro he
        exact hnd.1 (he ▸ List.mem_map_of_mem Voucher.id hvmem)
      simp only [incrVouchers, List.map_cons, if_neg hne]
      rw [List.find?_cons_of_neg _ hw]
      exact ih hnd.2 hf

theorem finishOrder_vouchers (inp : OrderInput) (now : Int) (insertOk : Bool)
    (product : Product) (qty discount : Int) (db : DB) :
    (finishOrder inp now insertOk product qty discount db).1.vouchers = db.vouchers := by
  cases insertOk <;> rfl

theorem finishOrder_products (inp : OrderInput) (now : Int) (insertOk : Bool)
    (product : Product) (qty discount : Int) (db : DB) :
    (finishOrder inp now insertOk product qty discount db).1.products = db.products := by
  cases insertOk <;> rfl

/-- One successful redemption: the handler succeeds and the only change
besides the inserted order is the increment of the matched voucher. -/
theorem createOrder_success_step (inp : OrderInput) (now : Int) (db : DB)
    (product : Product) (v : Voucher)
    (hm : ¬ missingReq inp)
    (hp : db.products.find? (productMatches inp.product_id) = some product)
    (hg : voucherGiven inp)
    (hf : db.vouchers.find? (voucherMatches (normCode inp.voucher_code) now) = some v)
    (hN : 0 < v.usage_limit) (hcnt : v.used_count < v.usage_limit) :
    (createOrder inp now true db).2 =
      OrderResult.ok (genOrderCode now) v.discount_amount
        (orderTotal product.price (qtyOf inp.quantity) v.discount_amount) ∧
    (createOrder inp now true db).1.products = db.products ∧
    (createOrder inp now true db).1.vouchers = incrVouchers v.id db.vouchers := by
  have hl : ¬ (v.usage_limit > 0 ∧ v.used_count ≥ v.usage_limit) := by
    push_neg
    intro _
    exact hcnt
  rw [createOrder_of_voucher inp now true db product v hm hp hg hf hl]
  exact ⟨finishOrder_snd_true _ _ _ _ _ _,
    finishOrder_products _ _ _ _ _ _ _,
    finishOrder_vouchers _ _ _ _ _ _ _⟩

/-- State evolution along `k` successful sequential redemptions: products
unchanged, row ids unchanged, and the voucher is found with used_count
increased by `k`. -/
theorem runOrders_state (inp : OrderInput) (now : Int) (db : DB) (product : Product)
    (v : Voucher)
    (hm : ¬ missingReq inp)
    (hp : db.products.find? (productMatches inp.product_id) = some product)
    (hg : voucherGiven inp)
    (hnd : (db.vouchers.map Voucher.id).Nodup)
    (hf : db.vouchers.find? (voucherMatches (normCode inp.voucher_code) now) = some v)
    (hN : 0 < v.usage_limit) :
    ∀ k : Nat, (k : Int) ≤ v.usage_limit - v.used_count →
      (runOrders inp now k db).products = db.products ∧
      ((runOrders inp now k db).vouchers.map Voucher.id).Nodup ∧
      (runOrders inp now k db).vouchers.find?
          (voucherMatches (normCode inp.voucher_code) now) = some (bumpUsed^[k] v) := by
  intro k
  induction k with
  | zero =>
    intro _
    exact ⟨rfl, hnd, hf⟩
  | succ k ih =>
    intro hk
    have hk0 : (k : Int) ≤ v.usage_limit - v.used_count := by
      push_cast at hk ⊢
      omega
    obtain ⟨ihp, ihnd, ihf⟩ := ih hk0
    have hpk : (runOrders inp now k db).products.find? (productMatches inp.product_id) =
        some product := by
      rw [ihp]
      exact hp
    have hNk : 0 < (bumpUsed^[k] v).usage_limit := by
      rw [iter_bumpUsed_usage_limit]
      exact hN
    have hcntk : (bumpUsed^[k] v).used_count < (bumpUsed^[k] v).usage_limit := by
      rw [iter_bumpUsed_usage_limit, iter_bumpUsed_used_count]
      push_cast at hk
      omega
    obtain ⟨hres, hprod, hvouch⟩ := createOrder_success_step inp now
      (runOrders inp now k db) product (bumpUsed^[k] v) hm hpk hg ihf hNk hcntk
    refine ⟨?_, ?_, ?_⟩
    · show (createOrder inp now true (runOrders inp now k db)).1.products = db.products
      rw [hprod, ihp]
    · show ((createOrder inp now true (runOrders inp now k db)).1.vouchers.map
        Voucher.id).Nodup
      rw [hvouch, incrVouchers_map_id]
      exact ihnd
    · show (createOrder inp now true (runOrders inp now k db)).1.vouchers.find?
          (voucherMatches (normCode inp.voucher_code) now) = some (bumpUsed^[k + 1] v)
      rw [hvouch, Function.iterate_succ_apply']
      exact find?_incrVouchers (normCode inp.voucher_code) now
        (runOrders inp now k db).vouchers (bumpUsed^[k] v) ihnd ihf

/-- The order handler preserves the used_count invariant (row ids being
unique, as the PRIMARY KEY guarantees). -/
theorem createOrder_preserves_inv (inp : OrderInput) (now : Int) (insertOk : Bool)
    (db : DB) (hnd : (db.vouchers.map Voucher.id).Nodup) (hinv : dbInv db) :
    dbInv (createOrder inp now insertOk db).1 := by
  by_cases hm : missingReq inp
  · rw [createOrder_of_missing inp now insertOk db hm]
    exact hinv
  · cases hp : db.products.find? (productMatches inp.product_id) with
    | none =>
      rw [createOrder_of_noProduct inp now insertOk db hm hp]
      exact hinv
    | some product =>
      by_cases hg : voucherGiven inp
      · cases hf : db.vouchers.find? (voucherMatches (normCode inp.voucher_code) now) with
        | none =>
          rw [createOrder_of_invalid inp now insertOk db product hm hp hg hf]
          exact hinv
        | some v =>
          by_cases hl : v.usage_limit > 0 ∧ v.used_count ≥ v.usage_limit
          · rw [createOrder_of_limit inp now insertOk db product v hm hp hg hf hl]
            exact hinv
          · rw [createOrder_of_voucher inp now insertOk db product v hm hp hg hf hl]
            intro w2 hw2
            rw [finishOrder_vouchers] at hw2
            simp only [incrVouchers, List.mem_map] at hw2
            obtain ⟨w, hwmem, hweq⟩ := hw2
            by_cases hid : w.id = v.id
            · have hvmem : v ∈ db.vouchers := List.mem_of_find?_eq_some hf
              have hwv : w = v := List.inj_on_of_nodup_map hnd hwmem hvmem hid
              rw [if_pos hid, hwv] at hweq
              rw [← hweq]
              intro hpos
              push_neg at hl
              have := hl hpos
              show v.used_count + 1 ≤ v.usage_limit
              omega
            · rw [if_neg hid] at hweq
              rw [← hweq]
              exact hinv w hwmem
      · rw [createOrder_of_noVoucher inp now insertOk db product hm hp hg]
        intro w2 hw2
        rw [finishOrder_vouchers] at hw2
        exact hinv w2 hw2

/-- C1: for a voucher with positive usage limit N, the sequential
order-creation loop succeeds exactly N times — every run before the Nth
redeems it, the run after the Nth answers VOUCHER_LIMIT — and the
invariant `used_count <= usage_limit` (for positive limits) is preserved
by every operation touching vouchers: order creation, voucher validation,
and the admin toggle, delete and create. -/
theorem c1_usage_limit_exact :
    (∀ (inp : OrderInput) (now : Int) (db : DB) (product : Product) (v : Voucher) (N : Nat),
      ¬ missingReq inp →
      db.products.find? (productMatches inp.product_id) = some product →
      voucherGiven inp →
      (db.vouchers.map Voucher.id).Nodup →
      db.vouchers.find? (voucherMatches (normCode inp.voucher_code) now) = some v →
      v.usage_limit = (N : Int) → 0 < N → v.used_count = 0 →
      (∀ k : Nat, k < N → ∃ oc d t,
        (createOrder inp now true (runOrders inp now k db)).2 = OrderResult.ok oc d t) ∧
      (createOrder inp now true (runOrders inp now N db)).2 = OrderResult.voucherLimit) ∧
    (∀ (inp : OrderInput) (now : Int) (insertOk : Bool) (db : DB),
      (db.vouchers.map Voucher.id).Nodup → dbInv db →
      dbInv (createOrder inp now insertOk db).1) ∧
    (∀ (code : String) (now : Int) (db : DB), dbInv db →
      dbInv (validateVoucherRun code now db).1) ∧
    (∀ (vid : Nat) (db : DB), dbInv db → dbInv (toggleVoucher vid db)) ∧
    (∀ (vid : Nat) (db : DB), dbInv db → dbInv (deleteVoucher vid db)) ∧
    (∀ (vid : Nat) (code : String) (disc vfrom vto ulimit : Int) (db : DB),
      0 ≤ ulimit → dbInv db → dbInv (addVoucher vid code disc vfrom vto ulimit db)) := by
  refine ⟨?_, createOrder_preserves_inv, ?_, ?_, ?_, ?_⟩
  · intro inp now db product v N hm hp hg hnd hf hlim hNpos h0
    have hNle : 0 < v.usage_limit := by rw [hlim]; exact_mod_cast hNpos
    constructor
    · intro k hk
      have hkle : (k : Int) ≤ v.usage_limit - v.used_count := by
        rw [hlim, h0]
        push_cast
        omega
      obtain ⟨ihp, ihnd, ihf⟩ :=
        runOrders_state inp now db product v hm hp hg hnd hf hNle k hkle
      have hpk : (runOrders inp now k db).products.find? (productMatches inp.product_id) =
          some product := by
        rw [ihp]
        exact hp
      have hNk : 0 < (bumpUsed^[k] v).usage_limit := by
        rw [iter_bumpUsed_usage_limit]
        exact hNle
      have hcntk : (bumpUsed^[k] v).used_count < (bumpUsed^[k] v).usage_limit := by
        rw [iter_bumpUsed_usage_limit, iter_bumpUsed_used_count, h0, hlim]
        push_cast
        omega
      obtain ⟨hres, _, _⟩ := createOrder_success_step inp now (runOrders inp now k db)
        product (bumpUsed^[k] v) hm hpk hg ihf hNk hcntk
      exact ⟨_, _, _, hres⟩
    · have hkle : (N : Int) ≤ v.usage_limit - v.used_count := by
        rw [hlim, h0]
        simp
      obtain ⟨ihp, ihnd, ihf⟩ :=
        runOrders_state inp now db product v hm hp hg hnd hf hNle N hkle
      have hpk : (runOrders inp now N db).products.find? (productMatches inp.product_id) =
          some product := by
        rw [ihp]
        exact hp
      have hl : (bumpUsed^[N] v).usage_limit > 0 ∧
          (bumpUsed^[N] v).used_count ≥ (bumpUsed^[N] v).usage_limit := by
        rw [iter_bumpUsed_usage_limit, iter_bumpUsed_used_count, h0, hlim]
        push_cast
        omega
      rw [createOrder_of_limit inp now true (runOrders inp now N db) product
        (bumpUsed^[N] v) hm hpk hg ihf hl]
  · intro code now db hinv
    rw [validateVoucherRun_fst]
    exact hinv
  · intro vid db hinv
    intro w2 hw2
    simp only [toggleVoucher, List.mem_map] at hw2
    obtain ⟨w, hwmem, hweq⟩ := hw2
    by_cases hid : w.id = vid
    · rw [if_pos hid] at hweq
      rw [← hweq]
      exact hinv w hwmem
    · rw [if_neg hid] at hweq
      rw [← hweq]
      exact hinv w hwmem
  · intro vid db hinv
    intro w2 hw2
    simp only [deleteVoucher, List.mem_filter] at hw2
    exact hinv w2 hw2.1
  · intro vid code disc vfrom vto ulimit db hss hinv
    intro w2 hw2
    simp only [addVoucher, List.mem_append, List.mem_singleton] at hw2
    rcases hw2 with hw2 | hw2
    · exact hinv w2 hw2
    · rw [hw2]
      intro _
      exact hss

/-- C1 witness: demo voucher with limit 2: the second run still succeeds,
the third answers VOUCHER_LIMIT, and the admin toggle keeps the
invariant. -/
theorem c1_usage_limit_exact_witness :
    (∃ oc d t, (createOrder demoInput 50 true (runOrders demoInput 50 1 demoDB)).2 =
      OrderResult.ok oc d t) ∧
    (createOrder demoInput 50 true (runOrders demoInput 50 2 demoDB)).2 =
      OrderResult.voucherLimit ∧
    dbInv (toggleVoucher 1 demoDB) :=
  ⟨(c1_usage_limit_exact.1 demoInput 50 demoDB demoProduct demoVoucher 2
      (by decide) (by decide) (by decide) (by decide) (by decide) (by decide)
      (by decide) (by decide)).1 1 (by decide),
   (c1_usage_limit_exact.1 demoInput 50 demoDB demoProduct demoVoucher 2
      (by decide) (by decide) (by decide) (by decide) (by decide) (by decide)
      (by decide) (by decide)).2,
   c1_usage_limit_exact.2.2.2.1 1 demoDB (by decide)⟩
